import Mathlib

/-!
Shallow embedding of the news-scrape pipeline sources
(`src/main.py` and `src/weekly_news/weekly_news.py`) and proofs of the
specification claims about them.  Pure logic of the two scripts —
collection filtering, URL deduplication, volume capping, text assembly,
summary extraction, model-fallback chaining and Slack chunking — is
translated into executable Lean definitions; the external calls
(HTTP search, the LLM endpoint, the webhook) appear as function
parameters of the embedded pipeline.
-/

/-- One RSS feed entry as built by `fetch_google_news_rss` in
`src/weekly_news/weekly_news.py` (a dict with keys
`title`, `link`, `description`, `published`). -/
structure FeedItem where
  title : String
  link : String
  description : String
  published : String
deriving DecidableEq, Repr

/-- One fold step of the dedup loop in `main` of
`src/weekly_news/weekly_news.py` (lines 113–117): the accumulator is the
pair `(all_items, seen_links)`; an item is appended only when its `link`
is non-empty (Python truthiness of `if link`) and not yet in
`seen_links`. -/
def dedupe_scan (acc : List FeedItem × List String) (item : FeedItem) :
    List FeedItem × List String :=
  if item.link ≠ "" ∧ item.link ∉ acc.2 then
    (acc.1 ++ [item], item.link :: acc.2)
  else acc

/-- The whole dedup loop of `main` in `src/weekly_news/weekly_news.py`
applied to the concatenation of the per-keyword item lists: fold
`dedupe_scan` from the empty accumulator and keep `all_items`. -/
def weekly_dedupe (items : List FeedItem) : List FeedItem :=
  (items.foldl dedupe_scan ([], [])).1

/-- Recursive restatement of the dedup loop, used to reason by
induction; `dedupe_scan_foldl_eq` proves it equal to the fold. -/
def dedupe_rec (seen : List String) : List FeedItem → List FeedItem
  | [] => []
  | item :: rest =>
    if item.link ≠ "" ∧ item.link ∉ seen then
      item :: dedupe_rec (item.link :: seen) rest
    else dedupe_rec seen rest

/-- The volume cap of `main` in `src/weekly_news/weekly_news.py`
(line 124): `all_items = all_items[:25]`. -/
def weekly_cap (items : List FeedItem) : List FeedItem :=
  items.take 25

/-- One collected article as built by `search_news` in `src/main.py`
(a dict with keys `keyword`, `title`, `body`, `url`, `date`). -/
structure Article where
  keyword : String
  title : String
  body : String
  url : String
  date : String
deriving DecidableEq, Repr

/-- The recency window of `src/main.py`: `DAYS_FILTER = 7`. -/
def DAYS_FILTER : Int := 7

/-- The cutoff computed in `search_news` (`src/main.py` line 26):
`cutoff = datetime.now(utc) - timedelta(days=DAYS_FILTER)`, with
timestamps modelled as integer epoch seconds. -/
def search_cutoff (now : Int) : Int :=
  now - DAYS_FILTER * 86400

/-- The publication time assigned to a result in `search_news`
(`src/main.py` lines 41–49): the ISO-parsed timestamp when parsing
succeeds, and the current time (`datetime.now(utc)`) when
`fromisoformat` raises. The ISO parser is an external library call and
appears as the `parse` parameter. -/
def article_pub_time (parse : String → Option Int) (now : Int)
    (date_str : String) : Int :=
  match parse date_str with
  | some t => t
  | none => now

/-- The retention test of `search_news` (`src/main.py` line 50):
`if pub_dt >= cutoff`, an article is appended exactly when its assigned
publication time is at least the cutoff. -/
def search_keeps (parse : String → Option Int) (now : Int)
    (date_str : String) : Bool :=
  decide (search_cutoff now ≤ article_pub_time parse now date_str)

/-- One numbered entry of the text block assembled by `build_news_text` in
`src/main.py` (line 74). -/
def article_line (i : Nat) (a : Article) : String :=
  "[" ++ toString i ++ "] 키워드: " ++ a.keyword ++ "\n제목: " ++ a.title ++
    "\n내용: " ++ a.body ++ "\nURL: " ++ a.url ++ "\n"

/-- `build_news_text` of `src/main.py` (lines 67–76): the empty string for
an empty article list, otherwise the newline-joined numbered entries,
numbering from 1 (`enumerate(articles, 1)`). -/
def build_news_text (articles : List Article) : String :=
  if articles.isEmpty then ""
  else String.intercalate "\n"
    ((List.enumFrom 1 articles).map (fun p => article_line p.1 p.2))

/-- Python whitespace as recognised by `str.strip()` (ASCII range): space,
tab, newline, carriage return, vertical tab, form feed. -/
def py_is_space (c : Char) : Bool :=
  c == ' ' || c == '\t' || c == '\n' || c == '\r' || c == '\x0b' || c == '\x0c'

/-- Python's `str.strip()`: drop leading and trailing whitespace. -/
def py_strip (s : String) : String :=
  String.mk
    (((s.data.dropWhile py_is_space).reverse.dropWhile py_is_space).reverse)

/-- The fixed sentinel returned by `summarize_with_llm` in `src/main.py`
(line 82) when the assembled text is empty or whitespace-only. -/
def NO_NEWS_MESSAGE : String := "수집된 뉴스가 없어 요약을 생성하지 못했습니다."

/-- The fixed instruction prepended to the news text by
`summarize_with_llm` in `src/main.py` (lines 87–92). -/
def llm_instruction : String :=
  "다음 뉴스들을 기업별로 분류하고 핵심 비즈니스 이슈 위주로 3줄씩 요약해줘.\n\n형식: \x27경쟁사 주간 동향\x27 리포트처럼 기업명별로 구분하고, 각 기업당 3줄 이내로 요약해줘.\n\n---\n"

/-- What `summarize_with_llm` in `src/main.py` does before any network
traffic: either it returns the no-news sentinel without calling the
endpoint (`if not news_text.strip()`, lines 81–82), or it issues one
request whose prompt is the instruction followed by the news text. -/
inductive LlmAction where
  | sentinel (msg : String) : LlmAction
  | request (prompt : String) : LlmAction
deriving DecidableEq, Repr

/-- The network-or-sentinel decision of `summarize_with_llm` in
`src/main.py` (lines 81–92). -/
def summarize_with_llm_action (news_text : String) : LlmAction :=
  if py_strip news_text = "" then LlmAction.sentinel NO_NEWS_MESSAGE
  else LlmAction.request (llm_instruction ++ news_text)

/-- Outcome of one pipeline run: either the early return on zero collected
articles (nothing summarized, nothing posted) or a completed run that
posted the given summary. -/
inductive RunOutcome where
  | noNews : RunOutcome
  | completed (summary : String) : RunOutcome
deriving DecidableEq, Repr

/-- `main` of `src/main.py` (lines 168–182), with the collected articles
and the summarization endpoint as parameters: on an empty collection it
returns before summarizing (`if not articles: return`); otherwise it
summarizes the assembled text and posts the result. -/
def ddg_main_run (articles : List Article) (summarize : String → String) :
    RunOutcome :=
  if articles.isEmpty then RunOutcome.noNews
  else RunOutcome.completed (summarize (build_news_text articles))

/-- `main` of `src/weekly_news/weekly_news.py` (lines 96–131), with the
per-keyword fetched item lists and the summarizer as parameters: it
dedupes the concatenated fetches, returns early when nothing survives
(`if not all_items: return`), and otherwise caps at 25 and summarizes. -/
def weekly_main_run (fetched : List (List FeedItem))
    (summarize : List FeedItem → String) : RunOutcome :=
  if (weekly_dedupe fetched.flatten).isEmpty then RunOutcome.noNews
  else RunOutcome.completed
    (summarize (weekly_cap (weekly_dedupe fetched.flatten)))

/-- The per-block size limit applied in `send_to_slack` of `src/main.py`
(line 149): `chunk_size = 2900`. -/
def SLACK_CHUNK_SIZE : Nat := 2900

/-- Fuel-indexed version of the chunking loop of `send_to_slack` in
`src/main.py` (lines 150–157): `for i in range(0, len(summary), chunk_size)`
emits `summary[i : i + chunk_size]` per step; fuel bounds the iteration
count and `slack_chunks` supplies enough of it. -/
def slack_chunks_go : Nat → List Char → List (List Char)
  | 0, _ => []
  | _ + 1, [] => []
  | fuel + 1, c :: cs =>
    (c :: cs).take SLACK_CHUNK_SIZE ::
      slack_chunks_go fuel ((c :: cs).drop SLACK_CHUNK_SIZE)

/-- The body segments produced by the chunking loop of `send_to_slack` in
`src/main.py` for a summary string (modelled as its character list). -/
def slack_chunks (summary : List Char) : List (List Char) :=
  slack_chunks_go summary.length summary

/-- A parsed JSON value as returned by `resp.json()` in
`summarize_with_llm` of `src/main.py`; objects keep their key order and
`num` abstracts the numeric leaves. -/
inductive Json where
  | null : Json
  | bool (b : Bool) : Json
  | num (n : Int) : Json
  | str (s : String) : Json
  | arr (elems : List Json) : Json
  | obj (fields : List (String × Json)) : Json

/-- Key lookup in a JSON object, modelling both `k in data` and
`data[k]` / `data.get(k)` on a Python dict. -/
def jlookup : List (String × Json) → String → Option Json
  | [], _ => none
  | (k, v) :: rest, key => if k = key then some v else jlookup rest key

/-- Python `len()` on a JSON value: defined for strings, arrays and
objects, a `TypeError` (none) otherwise. -/
def py_len : Json → Option Nat
  | Json.str s => some s.length
  | Json.arr xs => some xs.length
  | Json.obj fs => some fs.length
  | _ => none

mutual

/-- Python `str()` of a parsed JSON value (`str(data)` in
`summarize_with_llm` of `src/main.py`): the repr-style rendering of the
corresponding Python object. -/
def renderStr : Json → String
  | Json.null => "None"
  | Json.bool b => if b then "True" else "False"
  | Json.num n => toString n
  | Json.str s => "\x27" ++ s ++ "\x27"
  | Json.arr xs => "[" ++ renderArr xs ++ "]"
  | Json.obj fs => "\x7b" ++ renderObj fs ++ "\x7d"

/-- Comma-separated rendering of a Python list body. -/
def renderArr : List Json → String
  | [] => ""
  | [x] => renderStr x
  | x :: y :: rest => renderStr x ++ ", " ++ renderArr (y :: rest)

/-- Comma-separated rendering of a Python dict body. -/
def renderObj : List (String × Json) → String
  | [] => ""
  | [(k, v)] => "\x27" ++ k ++ "\x27: " ++ renderStr v
  | (k, v) :: p :: rest =>
    "\x27" ++ k ++ "\x27: " ++ renderStr v ++ ", " ++ renderObj (p :: rest)

end

/-- The tail of the shape checks in `summarize_with_llm` of `src/main.py`
(lines 118–124): top-level `content`, then `message`, then `text`, then
`str(data)`. -/
def shape_fallbacks (fs : List (String × Json)) (data : Json) :
    Except Unit Json :=
  match jlookup fs "content" with
  | some v => Except.ok v
  | none =>
    match jlookup fs "message" with
    | some v => Except.ok v
    | none =>
      match jlookup fs "text" with
      | some v => Except.ok v
      | none => Except.ok (Json.str (renderStr data))

/-- The whole summary extraction of `summarize_with_llm` in `src/main.py`
(lines 113–124).  `Except.error ()` models the uncaught Python exceptions
(`len()` on a non-sized value, `.get` on a non-dict, indexing a dict with
`0`): when `choices` is present and non-empty the code returns
`data["choices"][0].get("message", {}).get("content", str(data))` and
never reaches the later shape checks; otherwise it falls through to
`shape_fallbacks`; a non-dict response is rendered with `str`. -/
def extract_summary (data : Json) : Except Unit Json :=
  match data with
  | Json.obj fs =>
    match jlookup fs "choices" with
    | some cv =>
      match py_len cv with
      | none => Except.error ()
      | some n =>
        if 0 < n then
          match cv with
          | Json.arr (Json.obj cf :: _) =>
            match (jlookup cf "message").getD (Json.obj []) with
            | Json.obj mf =>
              match jlookup mf "content" with
              | some v => Except.ok v
              | none => Except.ok (Json.str (renderStr data))
            | _ => Except.error ()
          | _ => Except.error ()
        else shape_fallbacks fs data
    | none => shape_fallbacks fs data
  | _ => Except.ok (Json.str (renderStr data))

/-- Outcome of one `model.generate_content(prompt)` call in
`summarize_with_gemini` of `src/weekly_news/weekly_news.py`: either a
response (whose `text` may be empty, covering a falsy response or falsy
`response.text`) or a raised exception carrying its message string. -/
inductive GenResult where
  | ok (text : String) : GenResult
  | exn (msg : String) : GenResult
deriving DecidableEq, Repr

/-- Python's `str.lower()` (character-wise). -/
def py_lower (s : String) : String :=
  String.mk (s.data.map Char.toLower)

/-- Python's substring test `pat in s`. -/
def str_contains (s pat : String) : Bool :=
  s.data.tails.any (fun t => pat.data.isPrefixOf t)

/-- The error classification of `summarize_with_gemini` in
`src/weekly_news/weekly_news.py` (line 71):
`"404" in str(e) or "not found" in str(e).lower()`. -/
def is_not_found_error (msg : String) : Bool :=
  str_contains msg "404" || str_contains (py_lower msg) "not found"

/-- The fixed fallback chain tried by `summarize_with_gemini` in
`src/weekly_news/weekly_news.py` (line 64). -/
def GEMINI_MODEL_CANDIDATES : List String :=
  ["gemini-2.0-flash", "gemini-1.5-flash", "gemini-pro"]

/-- The candidate loop of `summarize_with_gemini` in
`src/weekly_news/weekly_news.py` (lines 64–74), with the external
`generate_content` call as a parameter: a non-empty response text returns
immediately; an empty one falls through to the next candidate; a
"model not found"-class exception (`continue`) advances; any other
exception re-raises (`Except.error`); an exhausted chain returns the
sentinel `"요약 생성 실패"`.  The second component counts the
`generate_content` calls made. -/
def summarize_with_gemini (generate : String → GenResult) :
    List String → Except String String × Nat
  | [] => (Except.ok "요약 생성 실패", 0)
  | m :: rest =>
    match generate m with
    | GenResult.ok t =>
      if t ≠ "" then (Except.ok t, 1)
      else
        ((summarize_with_gemini generate rest).1,
          (summarize_with_gemini generate rest).2 + 1)
    | GenResult.exn e =>
      if is_not_found_error e then
        ((summarize_with_gemini generate rest).1,
          (summarize_with_gemini generate rest).2 + 1)
      else (Except.error e, 1)

theorem dedupe_scan_foldl_eq (l : List FeedItem) :
    ∀ (out : List FeedItem) (seen : List String),
      (l.foldl dedupe_scan (out, seen)).1 = out ++ dedupe_rec seen l := by
  induction l with
  | nil => intro out seen; simp [dedupe_rec]
  | cons item rest ih =>
    intro out seen
    by_cases h : item.link ≠ "" ∧ item.link ∉ seen
    · simp only [List.foldl_cons, dedupe_rec, dedupe_scan, if_pos h, ih]
      simp
    · simp only [List.foldl_cons, dedupe_rec, dedupe_scan, if_neg h, ih]

theorem weekly_dedupe_eq_rec (l : List FeedItem) :
    weekly_dedupe l = dedupe_rec [] l := by
  simpa [weekly_dedupe] using dedupe_scan_foldl_eq l [] []

theorem dedupe_rec_sublist (l : List FeedItem) :
    ∀ seen, (dedupe_rec seen l).Sublist l := by
  induction l with
  | nil => intro seen; simp [dedupe_rec]
  | cons item rest ih =>
    intro seen
    by_cases h : item.link ≠ "" ∧ item.link ∉ seen
    · simpa [dedupe_rec, if_pos h] using List.Sublist.cons₂ item (ih (item.link :: seen))
    · simpa [dedupe_rec, if_neg h] using List.Sublist.cons item (ih seen)

theorem dedupe_rec_mem_link (l : List FeedItem) :
    ∀ seen a, a ∈ dedupe_rec seen l → a.link ≠ "" ∧ a.link ∉ seen := by
  induction l with
  | nil => intro seen a ha; simp [dedupe_rec] at ha
  | cons item rest ih =>
    intro seen a ha
    by_cases h : item.link ≠ "" ∧ item.link ∉ seen
    · rw [dedupe_rec, if_pos h] at ha
      rcases List.mem_cons.mp ha with rfl | ha
      · exact h
      · have hr := ih _ a ha
        exact ⟨hr.1, fun hs => hr.2 (List.mem_cons_of_mem _ hs)⟩
    · rw [dedupe_rec, if_neg h] at ha
      exact ih seen a ha

theorem dedupe_rec_links_nodup (l : List FeedItem) :
    ∀ seen, ((dedupe_rec seen l).map (fun a => a.link)).Nodup := by
  induction l with
  | nil => intro seen; simp [dedupe_rec]
  | cons item rest ih =>
    intro seen
    by_cases h : item.link ≠ "" ∧ item.link ∉ seen
    · rw [dedupe_rec, if_pos h]
      simp only [List.map_cons, List.nodup_cons]
      refine ⟨?_, ih _⟩
      intro hmem
      rcases List.mem_map.mp hmem with ⟨b, hb, hlink⟩
      have hr := dedupe_rec_mem_link rest _ b hb
      exact hr.2 (by rw [hlink]; exact List.mem_cons_self _ _)
    · rw [dedupe_rec, if_neg h]; exact ih seen

theorem dedupe_rec_find? (l : List FeedItem) :
    ∀ seen u, u ≠ "" → u ∉ seen →
      (dedupe_rec seen l).find? (fun a => a.link == u) =
        l.find? (fun a => a.link == u) := by
  induction l with
  | nil => intro seen u _ _; simp [dedupe_rec]
  | cons item rest ih =>
    intro seen u hu hus
    by_cases h : item.link ≠ "" ∧ item.link ∉ seen
    · rw [dedupe_rec, if_pos h]
      by_cases he : item.link = u
      · simp [List.find?, he]
      · rw [List.find?_cons_of_neg _ (by simp [he]),
          List.find?_cons_of_neg _ (by simp [he])]
        exact ih _ u hu (by
          simp only [List.mem_cons]
          push_neg
          exact ⟨fun hh => he hh.symm, hus⟩)
    · rw [dedupe_rec, if_neg h]
      have he : item.link ≠ u := by
        intro hh
        rcases not_and_or.mp h with h1 | h2
        · exact hu (hh ▸ not_not.mp h1)
        · exact hus (hh ▸ not_not.mp h2)
      rw [List.find?_cons_of_neg _ (by simp [he])]
      exact ih seen u hu hus

theorem filter_length_le_one_of_nodup_map {α β : Type} [DecidableEq β]
    (f : α → β) (u : β) :
    ∀ l : List α, (l.map f).Nodup → (l.filter (fun a => f a == u)).length ≤ 1 := by
  intro l
  induction l with
  | nil => intro _; simp
  | cons a rest ih =>
    intro hnd
    simp only [List.map_cons, List.nodup_cons] at hnd
    by_cases ha : f a = u
    · rw [List.filter_cons_of_pos (by simp [ha])]
      have hrest : rest.filter (fun b => f b == u) = [] := by
        rw [List.filter_eq_nil_iff]
        intro b hb hfb
        have hfb' : f b = u := by simpa using hfb
        exact hnd.1 (List.mem_map.mpr ⟨b, hb, hfb'.trans ha.symm⟩)
      simp [hrest]
    · rw [List.filter_cons_of_neg (by simp [ha])]
      exact ih hnd.2

theorem dedupe_rec_eq_self (l : List FeedItem) :
    (l.map (fun a => a.link)).Nodup → (∀ a ∈ l, a.link ≠ "") →
    ∀ seen, (∀ a ∈ l, a.link ∉ seen) → dedupe_rec seen l = l := by
  induction l with
  | nil => intro _ _ seen _; simp [dedupe_rec]
  | cons item rest ih =>
    intro hnd hne seen hseen
    simp only [List.map_cons, List.nodup_cons] at hnd
    have hcond : item.link ≠ "" ∧ item.link ∉ seen :=
      ⟨hne item (List.mem_cons_self _ _), hseen item (List.mem_cons_self _ _)⟩
    rw [dedupe_rec, if_pos hcond]
    congr 1
    apply ih hnd.2 (fun a ha => hne a (List.mem_cons_of_mem _ ha))
    intro a ha
    simp only [List.mem_cons]
    push_neg
    refine ⟨?_, hseen a (List.mem_cons_of_mem _ ha)⟩
    intro hh
    exact hnd.1 (List.mem_map.mpr ⟨a, ha, hh⟩)

/-- C1: the dedup loop of `main` in `src/weekly_news/weekly_news.py`, run on
the concatenation of the per-keyword article lists in keyword configuration
order, keeps each distinct non-empty URL at most once, retains for each such
URL exactly the first occurrence of the concatenation (the whole record, all
field values intact, as witnessed by `find?` agreeing with the input), and
outputs the retained entries in their original relative order (the output is
a sublist of the input). -/
theorem C1_dedupe_of_merged_lists (lists : List (List FeedItem)) (u : String)
    (hu : u ≠ "") :
    (weekly_dedupe lists.flatten).Sublist lists.flatten ∧
    ((weekly_dedupe lists.flatten).filter (fun a => a.link == u)).length ≤ 1 ∧
    (weekly_dedupe lists.flatten).find? (fun a => a.link == u) =
      lists.flatten.find? (fun a => a.link == u) := by
  rw [weekly_dedupe_eq_rec]
  refine ⟨dedupe_rec_sublist _ [], ?_, ?_⟩
  · exact filter_length_le_one_of_nodup_map (fun (a : FeedItem) => a.link) u _
      (dedupe_rec_links_nodup _ [])
  · exact dedupe_rec_find? _ [] u hu (by simp)

/-- Witness for C1 at a concrete pair of per-keyword lists sharing the URL
`"u1"`. -/
theorem C1_dedupe_of_merged_lists_witness :
    (weekly_dedupe
        ([[⟨"a", "u1", "", ""⟩], [⟨"b", "u1", "", ""⟩, ⟨"c", "u2", "", ""⟩]] :
          List (List FeedItem)).flatten).Sublist
      ([[⟨"a", "u1", "", ""⟩], [⟨"b", "u1", "", ""⟩, ⟨"c", "u2", "", ""⟩]] :
          List (List FeedItem)).flatten ∧
    ((weekly_dedupe
        ([[⟨"a", "u1", "", ""⟩], [⟨"b", "u1", "", ""⟩, ⟨"c", "u2", "", ""⟩]] :
          List (List FeedItem)).flatten).filter
        (fun a => a.link == "u1")).length ≤ 1 ∧
    (weekly_dedupe
        ([[⟨"a", "u1", "", ""⟩], [⟨"b", "u1", "", ""⟩, ⟨"c", "u2", "", ""⟩]] :
          List (List FeedItem)).flatten).find? (fun a => a.link == "u1") =
      ([[⟨"a", "u1", "", ""⟩], [⟨"b", "u1", "", ""⟩, ⟨"c", "u2", "", ""⟩]] :
          List (List FeedItem)).flatten.find? (fun a => a.link == "u1") :=
  C1_dedupe_of_merged_lists
    [[⟨"a", "u1", "", ""⟩], [⟨"b", "u1", "", ""⟩, ⟨"c", "u2", "", ""⟩]] "u1"
    (by decide)

/-- C2 counterexample: the claim says that of several articles whose URL is
the empty string the first is kept and the later ones discarded; on the code
(`if link and link not in seen_links`) every empty-URL article fails the
`if link` truthiness test, so none is kept — the first such article is not in
the output, which is empty. -/
theorem C2_counterexample :
    weekly_dedupe [⟨"first", "", "", ""⟩, ⟨"second", "", "", ""⟩] = [] ∧
    (⟨"first", "", "", ""⟩ : FeedItem) ∉
      weekly_dedupe [⟨"first", "", "", ""⟩, ⟨"second", "", "", ""⟩] := by
  decide

/-- C2 (amended): the dedup loop never retains an article whose URL is the
empty string — all empty-URL articles are discarded, including the first. -/
theorem C2_empty_url_discarded (l : List FeedItem) (a : FeedItem)
    (ha : a ∈ weekly_dedupe l) : a.link ≠ "" := by
  rw [weekly_dedupe_eq_rec] at ha
  exact (dedupe_rec_mem_link l [] a ha).1

/-- Witness for the amended C2 at a concrete retained article. -/
theorem C2_empty_url_discarded_witness :
    (FeedItem.mk "t" "u" "" "").link ≠ "" :=
  C2_empty_url_discarded [⟨"t", "u", "", ""⟩] (FeedItem.mk "t" "u" "" "")
    (by decide)

/-- C4 counterexample: the claim says dedup returns any list with pairwise
distinct URLs unchanged; the single-element list whose URL is the empty
string has (vacuously) pairwise distinct URLs, yet dedup drops it. -/
theorem C4_counterexample :
    (([⟨"t", "", "", ""⟩] : List FeedItem).map (fun a => a.link)).Nodup ∧
    weekly_dedupe [⟨"t", "", "", ""⟩] ≠ [⟨"t", "", "", ""⟩] := by
  decide

/-- C4 (amended): dedup is idempotent on lists whose URLs are pairwise
distinct and all non-empty — such a list is returned unchanged, same
elements in the same order. -/
theorem C4_dedupe_idempotent (l : List FeedItem)
    (hnd : (l.map (fun a => a.link)).Nodup)
    (hne : ∀ a ∈ l, a.link ≠ "") :
    weekly_dedupe l = l := by
  rw [weekly_dedupe_eq_rec]
  exact dedupe_rec_eq_self l hnd hne [] (by simp)

/-- Witness for the amended C4 at a concrete two-element list. -/
theorem C4_dedupe_idempotent_witness :
    weekly_dedupe [⟨"a", "u1", "", ""⟩, ⟨"b", "u2", "", ""⟩] =
      [⟨"a", "u1", "", ""⟩, ⟨"b", "u2", "", ""⟩] :=
  C4_dedupe_idempotent [⟨"a", "u1", "", ""⟩, ⟨"b", "u2", "", ""⟩]
    (by decide) (by decide)

/-- C3: the volume capper (`all_items = all_items[:25]` in
`src/weekly_news/weekly_news.py`) returns exactly the first 25 elements in
order when the input is longer than 25, and returns the input unchanged when
its length is at most 25. -/
theorem C3_volume_cap (l : List FeedItem) :
    (25 < l.length → (weekly_cap l).length = 25 ∧ weekly_cap l = l.take 25) ∧
    (l.length ≤ 25 → weekly_cap l = l) := by
  constructor
  · intro h
    refine ⟨?_, rfl⟩
    rw [weekly_cap, List.length_take]
    omega
  · intro h
    exact List.take_of_length_le h

/-- Witness for C3 at a concrete 26-element list. -/
theorem C3_volume_cap_witness :
    25 < (List.replicate 26 (FeedItem.mk "a" "u" "" "")).length ∧
    ((weekly_cap (List.replicate 26 (FeedItem.mk "a" "u" "" ""))).length = 25 ∧
      weekly_cap (List.replicate 26 (FeedItem.mk "a" "u" "" "")) =
        (List.replicate 26 (FeedItem.mk "a" "u" "" "")).take 25) :=
  ⟨by decide, (C3_volume_cap (List.replicate 26 (FeedItem.mk "a" "u" "" ""))).1
    (by decide)⟩

/-- C5: under the date-filtered collection mode of `search_news` in
`src/main.py`, a result whose date string fails to parse (which includes a
missing date, mapped to `""` by `r.get("date") or ""`) is always retained,
and the only excluded results are those with a successfully parsed timestamp
strictly older than the 7-day cutoff. -/
theorem C5_recency_filter_fails_open (parse : String → Option Int) (now : Int)
    (date_str : String) :
    (parse date_str = none → search_keeps parse now date_str = true) ∧
    (∀ t, parse date_str = some t →
      (search_keeps parse now date_str = true ↔ search_cutoff now ≤ t)) ∧
    (search_keeps parse now date_str = false →
      ∃ t, parse date_str = some t ∧ t < search_cutoff now) := by
  refine ⟨?_, ?_, ?_⟩
  · intro hp
    simp only [search_keeps, article_pub_time, hp, decide_eq_true_eq,
      search_cutoff, DAYS_FILTER]
    omega
  · intro t hp
    simp [search_keeps, article_pub_time, hp]
  · intro hk
    rcases hp : parse date_str with _ | t
    · exfalso
      simp only [search_keeps, article_pub_time, hp, decide_eq_false_iff_not,
        not_le, search_cutoff, DAYS_FILTER] at hk
      omega
    · refine ⟨t, rfl, ?_⟩
      simp only [search_keeps, article_pub_time, hp,
        decide_eq_false_iff_not, not_le] at hk
      exact hk

/-- Witness for C5: a parser that always fails, evaluated at `now = 0`. -/
theorem C5_recency_filter_fails_open_witness :
    search_keeps (fun _ => none) 0 "" = true :=
  (C5_recency_filter_fails_open (fun _ => none) 0 "").1 rfl

/-- C8: `build_news_text` returns the empty string for zero collected
articles, and `summarize_with_llm`, given empty or whitespace-only
assembled text, returns the fixed no-news sentinel without issuing any
network request. -/
theorem C8_empty_input_short_circuit :
    build_news_text [] = "" ∧
    ∀ s : String, py_strip s = "" →
      summarize_with_llm_action s = LlmAction.sentinel NO_NEWS_MESSAGE := by
  refine ⟨rfl, ?_⟩
  intro s hs
  simp [summarize_with_llm_action, hs]

/-- Witness for C8 at the empty string and at a whitespace-only string. -/
theorem C8_empty_input_short_circuit_witness :
    build_news_text [] = "" ∧
    summarize_with_llm_action "" = LlmAction.sentinel NO_NEWS_MESSAGE ∧
    summarize_with_llm_action " \n " = LlmAction.sentinel NO_NEWS_MESSAGE :=
  ⟨C8_empty_input_short_circuit.1,
    C8_empty_input_short_circuit.2 "" (by decide),
    C8_empty_input_short_circuit.2 " \n " (by decide)⟩

/-- C10: when collection yields zero articles, both pipeline entry points
return before the summarization and notification stages — the run outcome
is the early return, so no summary (in particular not the no-news
sentinel) is ever posted. -/
theorem C10_no_articles_early_return (s1 : String → String)
    (s2 : List FeedItem → String) (fetched : List (List FeedItem))
    (hf : ∀ l ∈ fetched, l = []) :
    ddg_main_run [] s1 = RunOutcome.noNews ∧
    weekly_main_run fetched s2 = RunOutcome.noNews := by
  constructor
  · rfl
  · have hfl : fetched.flatten = [] := List.flatten_eq_nil_iff.mpr hf
    simp [weekly_main_run, hfl, weekly_dedupe]

/-- Witness for C10 at concrete empty fetches and summarizers. -/
theorem C10_no_articles_early_return_witness :
    ddg_main_run [] (fun _ => "s") = RunOutcome.noNews ∧
    weekly_main_run [[]] (fun _ => "s") = RunOutcome.noNews :=
  C10_no_articles_early_return (fun _ => "s") (fun _ => "s") [[]] (by decide)

theorem slack_chunks_go_spec :
    ∀ (fuel : Nat) (s : List Char), s.length ≤ fuel →
      (slack_chunks_go fuel s).length = (s.length + 2899) / 2900 ∧
      (∀ c ∈ slack_chunks_go fuel s, c.length ≤ 2900) ∧
      (slack_chunks_go fuel s).flatten = s := by
  intro fuel
  induction fuel with
  | zero =>
    intro s hs
    have : s = [] := List.length_eq_zero.mp (Nat.le_zero.mp hs)
    subst this
    refine ⟨by simp [slack_chunks_go], ?_, by simp [slack_chunks_go]⟩
    intro c hc
    simp [slack_chunks_go] at hc
  | succ fuel ih =>
    intro s hs
    match s with
    | [] =>
      refine ⟨by simp [slack_chunks_go], ?_, by simp [slack_chunks_go]⟩
      intro c hc
      simp [slack_chunks_go] at hc
    | c0 :: cs =>
      have hlen : ((c0 :: cs).drop SLACK_CHUNK_SIZE).length ≤ fuel := by
        simp only [SLACK_CHUNK_SIZE, List.length_drop, List.length_cons] at hs ⊢
        omega
      obtain ⟨ihc, ihb, ihf⟩ := ih _ hlen
      simp only [SLACK_CHUNK_SIZE] at ihc ihb ihf
      refine ⟨?_, ?_, ?_⟩
      · rw [slack_chunks_go]
        simp only [SLACK_CHUNK_SIZE, List.length_cons, ihc, List.length_drop]
        omega
      · intro d hd
        rw [slack_chunks_go] at hd
        simp only [SLACK_CHUNK_SIZE] at hd
        rcases List.mem_cons.mp hd with rfl | hd
        · exact List.length_take_le _ _
        · exact ihb d hd
      · rw [slack_chunks_go]
        simp only [SLACK_CHUNK_SIZE, List.flatten_cons, ihf]
        exact List.take_append_drop _ _

/-- C9: for every summary string of length `L`, the chunking loop of
`send_to_slack` in `src/main.py` emits exactly `⌈L / 2900⌉` body segments
(computed as `(L + 2899) / 2900`), every segment has length at most 2900,
and the segments concatenate back, in emission order, to the original
summary. -/
theorem C9_slack_segmentation (summary : List Char) :
    (slack_chunks summary).length = (summary.length + 2899) / 2900 ∧
    (∀ c ∈ slack_chunks summary, c.length ≤ 2900) ∧
    (slack_chunks summary).flatten = summary :=
  slack_chunks_go_spec summary.length summary (Nat.le_refl _)

/-- Witness for C9 at a concrete two-character summary. -/
theorem C9_slack_segmentation_witness :
    (slack_chunks ['h', 'i']).length = (2 + 2899) / 2900 ∧
    (['h', 'i'].length ≤ 2900) ∧
    (slack_chunks ['h', 'i']).flatten = ['h', 'i'] :=
  ⟨(C9_slack_segmentation ['h', 'i']).1,
    (C9_slack_segmentation ['h', 'i']).2.1 ['h', 'i'] (by decide),
    (C9_slack_segmentation ['h', 'i']).2.2⟩

/-- C6 counterexample: the claim says top-level `content` is tried when
`choices[0].message.content` does not match; but for the response
`{"choices": [{}], "content": "X"}` the code takes the `choices` branch and
returns `str(data)` — whose length alone shows it is not `"X"` — without
ever consulting the top-level `content` field. -/
theorem C6_counterexample :
    extract_summary (Json.obj [("choices", Json.arr [Json.obj []]),
        ("content", Json.str "X")]) =
      Except.ok (Json.str (renderStr (Json.obj
        [("choices", Json.arr [Json.obj []]), ("content", Json.str "X")]))) ∧
    extract_summary (Json.obj [("choices", Json.arr [Json.obj []]),
        ("content", Json.str "X")]) ≠ Except.ok (Json.str "X") := by
  refine ⟨rfl, ?_⟩
  intro hcontra
  have h : Json.str (renderStr (Json.obj [("choices", Json.arr [Json.obj []]),
      ("content", Json.str "X")])) = Json.str "X" :=
    Except.ok.inj hcontra
  have h' := Json.str.inj h
  rw [renderStr] at h'
  have hl := congrArg String.length h'
  simp only [String.length_append] at hl
  rw [show ("\x7b" : String).length = 1 from rfl,
    show ("\x7d" : String).length = 1 from rfl,
    show ("X" : String).length = 1 from rfl] at hl
  omega

/-- C6 (amended): the extractor first checks for a non-empty `choices`
array; when one is present it returns `choices[0].message.content` if that
path yields a value and otherwise immediately returns the string rendering
of the whole response, never trying the remaining shapes; only when
`choices` is absent, or present but empty (`len(data["choices"]) > 0`
false), does it try top-level `content`, then `message`, then `text`, in
that order, falling back to the string rendering of the whole response
when none matches. -/
theorem C6_extraction_order (fs : List (String × Json)) :
    (∀ cf rest mf v,
      jlookup fs "choices" = some (Json.arr (Json.obj cf :: rest)) →
      (jlookup cf "message").getD (Json.obj []) = Json.obj mf →
      jlookup mf "content" = some v →
      extract_summary (Json.obj fs) = Except.ok v) ∧
    (∀ cf rest mf,
      jlookup fs "choices" = some (Json.arr (Json.obj cf :: rest)) →
      (jlookup cf "message").getD (Json.obj []) = Json.obj mf →
      jlookup mf "content" = none →
      extract_summary (Json.obj fs) =
        Except.ok (Json.str (renderStr (Json.obj fs)))) ∧
    (jlookup fs "choices" = none →
      extract_summary (Json.obj fs) = shape_fallbacks fs (Json.obj fs)) ∧
    (∀ cv, jlookup fs "choices" = some cv → py_len cv = some 0 →
      extract_summary (Json.obj fs) = shape_fallbacks fs (Json.obj fs)) ∧
    (∀ v, jlookup fs "content" = some v →
      shape_fallbacks fs (Json.obj fs) = Except.ok v) ∧
    (∀ v, jlookup fs "content" = none → jlookup fs "message" = some v →
      shape_fallbacks fs (Json.obj fs) = Except.ok v) ∧
    (∀ v, jlookup fs "content" = none → jlookup fs "message" = none →
      jlookup fs "text" = some v →
      shape_fallbacks fs (Json.obj fs) = Except.ok v) ∧
    (jlookup fs "content" = none → jlookup fs "message" = none →
      jlookup fs "text" = none →
      shape_fallbacks fs (Json.obj fs) =
        Except.ok (Json.str (renderStr (Json.obj fs)))) := by
  refine ⟨?_, ?_, ?_, ?_, ?_, ?_, ?_, ?_⟩
  · intro cf rest mf v h1 h2 h3
    simp [extract_summary, h1, h2, h3, py_len]
  · intro cf rest mf h1 h2 h3
    simp [extract_summary, h1, h2, h3, py_len]
  · intro h1
    simp [extract_summary, h1]
  · intro cv h1 h2
    simp [extract_summary, h1, h2]
  · intro v h1
    simp [shape_fallbacks, h1]
  · intro v h1 h2
    simp [shape_fallbacks, h1, h2]
  · intro v h1 h2 h3
    simp [shape_fallbacks, h1, h2, h3]
  · intro h1 h2 h3
    simp [shape_fallbacks, h1, h2, h3]

/-- Witness for the amended C6 at a concrete chat-completions-shaped
response, and at a response with an empty `choices` array, where the
extractor falls through to the remaining shapes. -/
theorem C6_extraction_order_witness :
    extract_summary (Json.obj [("choices", Json.arr [Json.obj
        [("message", Json.obj [("content", Json.str "S")])]])]) =
      Except.ok (Json.str "S") ∧
    extract_summary (Json.obj [("choices", Json.arr []),
        ("content", Json.str "X")]) =
      shape_fallbacks [("choices", Json.arr []), ("content", Json.str "X")]
        (Json.obj [("choices", Json.arr []), ("content", Json.str "X")]) :=
  ⟨(C6_extraction_order [("choices", Json.arr [Json.obj
      [("message", Json.obj [("content", Json.str "S")])]])]).1
    [("message", Json.obj [("content", Json.str "S")])] []
    [("content", Json.str "S")] (Json.str "S") rfl rfl rfl,
   (C6_extraction_order [("choices", Json.arr []),
      ("content", Json.str "X")]).2.2.2.1 (Json.arr []) rfl rfl⟩

/-- C7: the fallback chain of `summarize_with_gemini` tries the candidates
in order; a "model not found"-class error advances to the next candidate
(adding one attempt), any other error aborts the chain immediately with
that error after its single attempt, an exhausted chain returns the fixed
failure sentinel, and in the concrete scenario — first two candidates fail
as not-found and the third succeeds — the result is the third candidate's
output after exactly 3 calls. -/
theorem C7_gemini_fallback_chain (generate : String → GenResult) :
    (∀ m ms e, generate m = GenResult.exn e → is_not_found_error e = true →
      summarize_with_gemini generate (m :: ms) =
        ((summarize_with_gemini generate ms).1,
          (summarize_with_gemini generate ms).2 + 1)) ∧
    (∀ m ms e, generate m = GenResult.exn e → is_not_found_error e = false →
      summarize_with_gemini generate (m :: ms) = (Except.error e, 1)) ∧
    (summarize_with_gemini generate [] = (Except.ok "요약 생성 실패", 0)) ∧
    (∀ e1 e2 t,
      generate "gemini-2.0-flash" = GenResult.exn e1 →
      is_not_found_error e1 = true →
      generate "gemini-1.5-flash" = GenResult.exn e2 →
      is_not_found_error e2 = true →
      generate "gemini-pro" = GenResult.ok t → t ≠ "" →
      summarize_with_gemini generate GEMINI_MODEL_CANDIDATES =
        (Except.ok t, 3)) := by
  refine ⟨?_, ?_, rfl, ?_⟩
  · intro m ms e h1 h2
    simp [summarize_with_gemini, h1, h2]
  · intro m ms e h1 h2
    simp [summarize_with_gemini, h1, h2]
  · intro e1 e2 t h1 h2 h3 h4 h5 h6
    simp [GEMINI_MODEL_CANDIDATES, summarize_with_gemini, h1, h2, h3, h4, h5,
      h6]

/-- Witness for C7 with a concrete `generate_content` behaviour: HTTP 404
on the first candidate, a "not found" message on the second, success on
the third. -/
theorem C7_gemini_fallback_chain_witness :
    summarize_with_gemini
        (fun m =>
          if m = "gemini-2.0-flash" then GenResult.exn "got HTTP 404"
          else if m = "gemini-1.5-flash" then
            GenResult.exn "Model Not Found here"
          else GenResult.ok "third answer")
        GEMINI_MODEL_CANDIDATES =
      (Except.ok "third answer", 3) :=
  (C7_gemini_fallback_chain _).2.2.2 "got HTTP 404" "Model Not Found here"
    "third answer" (by decide) (by decide) (by decide) (by decide)
    (by decide) (by decide)
